import Mathlib

/-!
Shallow embedding of the Auto-Bell scheduling core
(`src/The Code/AutoBellTSS.ino`; the second source file is a cosmetic
variant with identical logic).  Machine `int` variables hold small values
(hours, minutes, day numbers, counts up to 30, durations up to 99), far
from any overflow boundary, so they are modelled as `Int`.  EEPROM is a
byte-addressable store, modelled as `Nat → Int` with writes truncated to
a byte (`emod 256`), matching `uint8_t` cells.  `millis()` timestamps are
modelled as a monotonic `Nat` (milliseconds).
-/

namespace AutoBell

/-- `MAX_ALARMS` from the sketch. -/
def MAX_ALARMS : Int := 30

/-- `MIN_BELL_DURATION`. -/
def MIN_BELL_DURATION : Int := 1

/-- `MAX_BELL_DURATION`. -/
def MAX_BELL_DURATION : Int := 99

/-- `ALARM_DATA_START` EEPROM address. -/
def ALARM_DATA_START : Nat := 50

/-- `BELL_DURATION_ADDR` EEPROM address. -/
def BELL_DURATION_ADDR : Nat := 10

/-- `WEEKEND_DAY_ADDR` EEPROM address. -/
def WEEKEND_DAY_ADDR : Nat := 11

/-- `ALARM_COUNT_ADDR` EEPROM address. -/
def ALARM_COUNT_ADDR : Nat := 12

/-- One EEPROM byte write: `EEPROM.write(a, v)` stores `v` truncated to a
byte at address `a`. -/
def ewrite (e : Nat → Int) (a : Nat) (v : Int) : Nat → Int :=
  fun x => if x = a then v.emod 256 else e x

/-- A DS1302 reading as consumed by `updateTimeFromRTC`: hour, minute,
second, day-of-week 0..6 as returned by `now.DayOfWeek()`, and the
`now.IsValid()` flag. -/
structure ClockReading where
  hour : Int
  minute : Int
  second : Int
  dow : Int
  valid : Bool
  deriving Repr, DecidableEq

/-- The global mutable state of the sketch that the scheduling core
reads and writes.  Field names follow the C globals. -/
structure BellState where
  hh : Int
  mm : Int
  ss : Int
  set_day : Int
  bell_duration : Int
  weekend : Int
  total_alarms : Int
  next_bell_hour : Int
  next_bell_minute : Int
  next_bell_found : Bool
  rtc_valid : Bool
  bellActive : Bool
  bellStart : Nat
  lastBellMinute : Int
  alarms_triggered_today : List Bool
  relay : Bool
  led_bell : Bool
  eeprom : Nat → Int

/-- `isWeekend(day)` from the sketch, with the global `weekend` selector
made an explicit first argument. -/
def isWeekend (weekend day : Int) : Bool :=
  if weekend = 6 then decide (day = 6 ∨ day = 7) else decide (day = weekend)

/-- `readAlarm(index, &hour, &minute)`: out-of-range indices yield
`(0, 0)`; in-range indices read the two EEPROM bytes of the slot. -/
def readAlarm (s : BellState) (index : Int) : Int × Int :=
  if index < 0 ∨ s.total_alarms ≤ index then (0, 0)
  else (s.eeprom (ALARM_DATA_START + index.toNat * 2),
        s.eeprom (ALARM_DATA_START + index.toNat * 2 + 1))

/-- `saveAlarm(index, hour, minute)`: guard the capacity, write the two
slot bytes, and extend `total_alarms` (also persisted) when the index is
not below the current count. -/
def saveAlarm (s : BellState) (index hour minute : Int) : BellState :=
  if index < 0 ∨ MAX_ALARMS ≤ index then s
  else
    let a := ALARM_DATA_START + index.toNat * 2
    let e1 := ewrite (ewrite s.eeprom a hour) (a + 1) minute
    if s.total_alarms ≤ index then
      { s with eeprom := ewrite e1 ALARM_COUNT_ADDR (index + 1),
               total_alarms := index + 1 }
    else { s with eeprom := e1 }

/-- The per-slot condition of the relay-start scan in `loop`:
`check_hour == hh && check_minute == mm && !alarms_triggered_today[i]
&& lastBellMinute != mm`. -/
def fireB (s : BellState) (i : Nat) : Bool :=
  let p := readAlarm s (Int.ofNat i)
  decide (p.1 = s.hh) && decide (p.2 = s.mm) &&
    !(s.alarms_triggered_today.getD i false) && decide (s.lastBellMinute ≠ s.mm)

/-- The `for (i = 0; i < total_alarms; i++) ... break` scan of the
relay-start block, as fuel recursion: first index whose `fireB` holds. -/
def scanFireAux (s : BellState) (i fuel : Nat) : Option Nat :=
  match fuel with
  | 0 => none
  | Nat.succ f => if fireB s i then some i else scanFireAux s (i + 1) f

/-- Index of the alarm the relay-start block fires this iteration,
if any. -/
def scanFire (s : BellState) : Option Nat :=
  scanFireAux s 0 s.total_alarms.toNat

/-- The per-slot condition of `findNextBell`:
`is_future || is_current_untriggered`. -/
def nextB (s : BellState) (i : Nat) : Bool :=
  let p := readAlarm s (Int.ofNat i)
  decide (p.1 > s.hh ∨ (p.1 = s.hh ∧ p.2 > s.mm)) ||
    (decide (p.1 = s.hh ∧ p.2 = s.mm) && !(s.alarms_triggered_today.getD i false))

/-- The `for` scan of `findNextBell`, as fuel recursion. -/
def scanNextAux (s : BellState) (i fuel : Nat) : Option Nat :=
  match fuel with
  | 0 => none
  | Nat.succ f => if nextB s i then some i else scanNextAux s (i + 1) f

/-- First table-order index eligible as "next bell", if any. -/
def scanNext (s : BellState) : Option Nat :=
  scanNextAux s 0 s.total_alarms.toNat

/-- `findNextBell()`: clear the found flag; bail out on weekends and on
an empty table; otherwise take the first eligible slot in table order,
falling back to slot 0 as tomorrow's first bell. -/
def findNextBell (s : BellState) : BellState :=
  let s0 := { s with next_bell_found := false }
  if isWeekend s.weekend s.set_day then s0
  else if s.total_alarms = 0 then s0
  else
    match scanNext s with
    | some i =>
        let p := readAlarm s (Int.ofNat i)
        { s0 with next_bell_hour := p.1, next_bell_minute := p.2,
                  next_bell_found := true }
    | none =>
        if 0 < s.total_alarms then
          let p := readAlarm s 0
          { s0 with next_bell_hour := p.1, next_bell_minute := p.2,
                    next_bell_found := true }
        else s0

/-- The relay-start block of `loop` (lines 198-240): when no bell is
active and today is not a weekend, fire the first matching untriggered
alarm whose minute differs from `lastBellMinute`: mark it triggered,
record `lastBellMinute`, energise relay and indicator, start the session
at `cur` (the `millis()` sample), and recompute the next bell. -/
def startBellScan (s : BellState) (cur : Nat) : BellState :=
  if s.bellActive = false ∧ isWeekend s.weekend s.set_day = false then
    match scanFire s with
    | none => s
    | some i =>
        findNextBell
          { s with alarms_triggered_today := s.alarms_triggered_today.set i true,
                   lastBellMinute := s.mm,
                   relay := true, led_bell := true,
                   bellStart := cur, bellActive := true }
  else s

/-- The relay-stop block of `loop` (lines 242-254): when a session is
active and `cur - bellStart ≥ bell_duration * 1000` the relay and
indicator are released and the session ends. -/
def stopBell (s : BellState) (cur : Nat) : BellState :=
  if s.bellActive = true ∧ (s.bell_duration * 1000).toNat ≤ cur - s.bellStart then
    { s with relay := false, led_bell := false, bellActive := false }
  else s

/-- `updateTimeFromRTC()`: on a valid reading commit hour, minute,
second and `set_day := dow + 1`, and when the day changed clear every
trigger flag and reset `lastBellMinute` to `-1`; on an invalid reading
only drop `rtc_valid`. -/
def updateTimeFromRTC (s : BellState) (r : ClockReading) : BellState :=
  if r.valid then
    let old_day := s.set_day
    let s1 := { s with ss := r.second, mm := r.minute, hh := r.hour,
                       set_day := r.dow + 1 }
    let s2 :=
      if old_day ≠ r.dow + 1 then
        { s1 with alarms_triggered_today := List.replicate MAX_ALARMS.toNat false,
                  lastBellMinute := -1 }
      else s1
    { s2 with rtc_valid := true }
  else { s with rtc_valid := false }

/-- One pass of `loop` restricted to the scheduling core: the RTC
refresh (gated on the one-second timer, `rtcDue`), then the relay-start
scan, then the relay-stop check, all sampling `millis()` as `cur`.
(`checkForAlarms` has an empty body in the sketch and is omitted.) -/
def loopIter (s : BellState) (r : ClockReading) (rtcDue : Bool) (cur : Nat) :
    BellState :=
  let s1 := if rtcDue then updateTimeFromRTC s r else s
  let s2 := startBellScan s1 cur
  stopBell s2 cur

/-- A sequence of `loop` passes, each with its own reading, timer gate
and `millis()` sample. -/
def runSteps (s : BellState) : List (ClockReading × Bool × Nat) → BellState
  | [] => s
  | (r, due, cur) :: rest => runSteps (loopIter s r due cur) rest

/-- The settings block of `setup()` (lines 136-155): load duration,
weekend selector and alarm count from EEPROM, clamp each out-of-domain
value to its default and write the default back.  Returns the three
loaded globals and the possibly rewritten EEPROM. -/
def setupValidateSettings (e : Nat → Int) : (Int × Int × Int) × (Nat → Int) :=
  let bd := e BELL_DURATION_ADDR
  let wk := e WEEKEND_DAY_ADDR
  let ta := e ALARM_COUNT_ADDR
  let p1 : Int × (Nat → Int) :=
    if bd < MIN_BELL_DURATION ∨ MAX_BELL_DURATION < bd then
      (3, ewrite e BELL_DURATION_ADDR 3)
    else (bd, e)
  let p2 : Int × (Nat → Int) :=
    if wk < 1 ∨ 7 < wk then (6, ewrite p1.2 WEEKEND_DAY_ADDR 6)
    else (wk, p1.2)
  let p3 : Int × (Nat → Int) :=
    if MAX_ALARMS < ta then (0, ewrite p2.2 ALARM_COUNT_ADDR 0)
    else (ta, p2.2)
  ((p1.1, p2.1, p3.1), p3.2)

/-! ### Helper lemmas -/

/-- `stopBell` touches only the relay, the indicator and the session
flag. -/
theorem stopBell_pres (s : BellState) (cur : Nat) :
    (stopBell s cur).alarms_triggered_today = s.alarms_triggered_today ∧
    (stopBell s cur).lastBellMinute = s.lastBellMinute ∧
    (stopBell s cur).total_alarms = s.total_alarms ∧
    (stopBell s cur).eeprom = s.eeprom ∧
    (stopBell s cur).set_day = s.set_day ∧
    (stopBell s cur).hh = s.hh ∧
    (stopBell s cur).mm = s.mm ∧
    (stopBell s cur).weekend = s.weekend := by
  unfold stopBell
  split <;> exact ⟨rfl, rfl, rfl, rfl, rfl, rfl, rfl, rfl⟩

/-- `findNextBell` touches only the three `next_bell` globals. -/
theorem findNextBell_pres (s : BellState) :
    (findNextBell s).hh = s.hh ∧
    (findNextBell s).mm = s.mm ∧
    (findNextBell s).ss = s.ss ∧
    (findNextBell s).set_day = s.set_day ∧
    (findNextBell s).bell_duration = s.bell_duration ∧
    (findNextBell s).weekend = s.weekend ∧
    (findNextBell s).total_alarms = s.total_alarms ∧
    (findNextBell s).rtc_valid = s.rtc_valid ∧
    (findNextBell s).bellActive = s.bellActive ∧
    (findNextBell s).bellStart = s.bellStart ∧
    (findNextBell s).lastBellMinute = s.lastBellMinute ∧
    (findNextBell s).alarms_triggered_today = s.alarms_triggered_today ∧
    (findNextBell s).relay = s.relay ∧
    (findNextBell s).led_bell = s.led_bell ∧
    (findNextBell s).eeprom = s.eeprom := by
  unfold findNextBell
  by_cases h1 : isWeekend s.weekend s.set_day = true
  · simp [h1]
  · by_cases h2 : s.total_alarms = 0
    · simp [h1, h2]
    · cases h3 : scanNext s with
      | none =>
        by_cases h4 : 0 < s.total_alarms <;>
          simp [h1, h2, h3, h4]
      | some i => simp [h1, h2, h3]

/-- `updateTimeFromRTC` never touches the session, configuration,
storage or next-bell globals. -/
theorem updateTime_pres (s : BellState) (r : ClockReading) :
    (updateTimeFromRTC s r).bell_duration = s.bell_duration ∧
    (updateTimeFromRTC s r).weekend = s.weekend ∧
    (updateTimeFromRTC s r).total_alarms = s.total_alarms ∧
    (updateTimeFromRTC s r).bellActive = s.bellActive ∧
    (updateTimeFromRTC s r).bellStart = s.bellStart ∧
    (updateTimeFromRTC s r).relay = s.relay ∧
    (updateTimeFromRTC s r).led_bell = s.led_bell ∧
    (updateTimeFromRTC s r).eeprom = s.eeprom ∧
    (updateTimeFromRTC s r).next_bell_hour = s.next_bell_hour ∧
    (updateTimeFromRTC s r).next_bell_minute = s.next_bell_minute ∧
    (updateTimeFromRTC s r).next_bell_found = s.next_bell_found := by
  unfold updateTimeFromRTC
  repeat' split <;> simp

/-- An invalid reading only drops `rtc_valid`. -/
theorem updateTime_invalid (s : BellState) (r : ClockReading)
    (h : r.valid = false) :
    updateTimeFromRTC s r = { s with rtc_valid := false } := by
  unfold updateTimeFromRTC
  simp [h]

/-- A valid same-day reading commits time fields only. -/
theorem updateTime_sameDay (s : BellState) (r : ClockReading)
    (hv : r.valid = true) (hd : r.dow + 1 = s.set_day) :
    updateTimeFromRTC s r =
      { s with ss := r.second, mm := r.minute, hh := r.hour,
               set_day := r.dow + 1, rtc_valid := true } := by
  unfold updateTimeFromRTC
  simp [hv, hd]

/-- A valid day-changing reading commits time fields, clears every
trigger flag and resets `lastBellMinute`. -/
theorem updateTime_dayChange (s : BellState) (r : ClockReading)
    (hv : r.valid = true) (hd : r.dow + 1 ≠ s.set_day) :
    updateTimeFromRTC s r =
      { s with ss := r.second, mm := r.minute, hh := r.hour,
               set_day := r.dow + 1,
               alarms_triggered_today := List.replicate MAX_ALARMS.toNat false,
               lastBellMinute := -1, rtc_valid := true } := by
  unfold updateTimeFromRTC
  simp [hv, Ne.symm hd]

/-- First-match characterization of the relay-start scan helper. -/
theorem scanFireAux_some (s : BellState) :
    ∀ fuel i j, scanFireAux s i fuel = some j →
      fireB s j = true ∧ ∀ k, i ≤ k → k < j → fireB s k = false := by
  intro fuel
  induction fuel with
  | zero => intro i j h; simp [scanFireAux] at h
  | succ f ih =>
    intro i j h
    unfold scanFireAux at h
    by_cases hf : fireB s i = true
    · rw [if_pos hf] at h
      obtain rfl : i = j := Option.some_injective _ h
      exact ⟨hf, fun k hk1 hk2 => absurd (lt_of_le_of_lt hk1 hk2) (lt_irrefl _)⟩
    · rw [if_neg hf] at h
      obtain ⟨h1, h2⟩ := ih (i + 1) j h
      refine ⟨h1, fun k hk1 hk2 => ?_⟩
      rcases Nat.eq_or_lt_of_le hk1 with hk | hk
      · rw [← hk]; exact Bool.eq_false_iff.mpr hf
      · exact h2 k hk hk2

/-- First-match characterization of the next-bell scan helper. -/
theorem scanNextAux_some (s : BellState) :
    ∀ fuel i j, scanNextAux s i fuel = some j →
      nextB s j = true ∧ ∀ k, i ≤ k → k < j → nextB s k = false := by
  intro fuel
  induction fuel with
  | zero => intro i j h; simp [scanNextAux] at h
  | succ f ih =>
    intro i j h
    unfold scanNextAux at h
    by_cases hf : nextB s i = true
    · rw [if_pos hf] at h
      obtain rfl : i = j := Option.some_injective _ h
      exact ⟨hf, fun k hk1 hk2 => absurd (lt_of_le_of_lt hk1 hk2) (lt_irrefl _)⟩
    · rw [if_neg hf] at h
      obtain ⟨h1, h2⟩ := ih (i + 1) j h
      refine ⟨h1, fun k hk1 hk2 => ?_⟩
      rcases Nat.eq_or_lt_of_le hk1 with hk | hk
      · rw [← hk]; exact Bool.eq_false_iff.mpr hf
      · exact h2 k hk hk2

/-- With no firing candidate the relay-start block is a no-op. -/
theorem startBellScan_none (s : BellState) (cur : Nat)
    (h : scanFire s = none) : startBellScan s cur = s := by
  unfold startBellScan
  split
  · rw [h]
  · rfl

/-- With an active session the relay-start block is a no-op. -/
theorem startBellScan_active (s : BellState) (cur : Nat)
    (h : s.bellActive = true) : startBellScan s cur = s := by
  unfold startBellScan
  rw [if_neg]
  intro hc
  rw [h] at hc
  exact Bool.true_eq_false.mp hc.1

/-- On a weekend day the relay-start block is a no-op. -/
theorem startBellScan_weekend (s : BellState) (cur : Nat)
    (h : isWeekend s.weekend s.set_day = true) : startBellScan s cur = s := by
  unfold startBellScan
  rw [if_neg]
  intro hc
  rw [h] at hc
  exact Bool.true_eq_false.mp hc.2

/-- The relay-start block on a firing candidate: mark, record, energise,
start the session and recompute the next bell. -/
theorem startBellScan_fire (s : BellState) (cur : Nat) (i : Nat)
    (hA : s.bellActive = false) (hW : isWeekend s.weekend s.set_day = false)
    (h : scanFire s = some i) :
    startBellScan s cur =
      findNextBell
        { s with alarms_triggered_today := s.alarms_triggered_today.set i true,
                 lastBellMinute := s.mm,
                 relay := true, led_bell := true,
                 bellStart := cur, bellActive := true } := by
  unfold startBellScan
  rw [if_pos ⟨hA, hW⟩, h]

/-- Reading an `ewrite` back at the written address. -/
theorem ewrite_same (e : Nat → Int) (a : Nat) (v : Int) :
    ewrite e a v a = v.emod 256 := by
  simp [ewrite]

/-- Reading an `ewrite` back at any other address. -/
theorem ewrite_other (e : Nat → Int) (a : Nat) (v : Int) (b : Nat)
    (h : b ≠ a) : ewrite e a v b = e b := by
  simp [ewrite, h]

/-! ### Concrete fixtures -/

/-- Zero-initialized storage, as after a fresh EEPROM init. -/
def zeroEE : Nat → Int := fun _ => 0

/-- A quiescent concrete state used to instantiate the claim theorems:
Sunday, 00:00:00, defaults loaded, empty table, no session. -/
def baseState : BellState :=
  { hh := 0, mm := 0, ss := 0, set_day := 1, bell_duration := 3, weekend := 6,
    total_alarms := 0, next_bell_hour := 0, next_bell_minute := 0,
    next_bell_found := false, rtc_valid := true, bellActive := false,
    bellStart := 0, lastBellMinute := -1,
    alarms_triggered_today := List.replicate 30 false,
    relay := false, led_bell := false, eeprom := zeroEE }

/-- A state whose table holds two alarms. -/
def twoAlarmState : BellState := { baseState with total_alarms := 2 }

/-- Storage holding an out-of-range duration (150), weekend selector (0)
and alarm count (200). -/
def corruptEE : Nat → Int := fun a =>
  if a = 10 then 150 else if a = 11 then 0 else if a = 12 then 200 else 0

/-- A Saturday state with one stored alarm matching the current time,
where only the weekend gate can be stopping the bell. -/
def satState : BellState :=
  { baseState with set_day := 7, hh := 8, mm := 0, total_alarms := 1,
                   eeprom := fun a =>
                     if a = 50 then 8 else if a = 51 then 0 else 0 }

/-- A state with the bell ringing since millisecond 1000 for a 5-second
configured duration. -/
def bellOnState : BellState :=
  { baseState with bellActive := true, relay := true, led_bell := true,
                   bellStart := 1000, bell_duration := 5 }

/-- A Monday 08:30 state whose two-slot table is stored out of
chronological order: slot 0 is `(9, 0)`, slot 1 is `(8, 0)`. -/
def outOfOrderState : BellState :=
  { baseState with hh := 8, mm := 30, set_day := 2, total_alarms := 2,
                   eeprom := fun a =>
                     if a = 50 then 9 else if a = 51 then 0 else
                     if a = 52 then 8 else if a = 53 then 0 else 0 }

/-- Monday 23:50 with one alarm `(8, 0)` already fired today and the
stale next-bell announcement cleared. -/
def staleNextState : BellState :=
  { baseState with hh := 23, mm := 50, set_day := 2, total_alarms := 1,
                   alarms_triggered_today := (List.replicate 30 false).set 0 true,
                   lastBellMinute := 0,
                   eeprom := fun a =>
                     if a = 50 then 8 else if a = 51 then 0 else 0 }

/-- Monday 08:01 with alarms `(8, 0)` (already fired, bell just ended)
and `(8, 1)` (matching the last committed minute, not yet evaluated
because the 90-second session covered the minute change). -/
def staleScanState : BellState :=
  { baseState with hh := 8, mm := 1, ss := 31, set_day := 2,
                   bell_duration := 90, total_alarms := 2,
                   next_bell_hour := 8, next_bell_minute := 1,
                   next_bell_found := true, lastBellMinute := 0,
                   alarms_triggered_today := (List.replicate 30 false).set 0 true,
                   eeprom := fun a =>
                     if a = 50 then 8 else if a = 51 then 0 else
                     if a = 52 then 8 else if a = 53 then 1 else 0 }

/-- The scenario of C4 after its first firing: a two-slot table with
duplicate entries `(8, 0)`, slot 0 already fired (flag set) and
`lastBellMinute = 0` recorded. -/
def dupTableInv (s : BellState) : Prop :=
  s.total_alarms = 2 ∧ s.eeprom 50 = 8 ∧ s.eeprom 51 = 0 ∧
  s.eeprom 52 = 8 ∧ s.eeprom 53 = 0 ∧
  s.alarms_triggered_today.getD 0 false = true ∧
  s.alarms_triggered_today.getD 1 false = false ∧
  s.lastBellMinute = 0

instance (s : BellState) : Decidable (dupTableInv s) := by
  unfold dupTableInv
  infer_instance

/-- Monday 08:00 with duplicate table entries `(8, 0)`, `(8, 0)`,
nothing triggered yet. -/
def dupFreshState : BellState :=
  { baseState with hh := 8, mm := 0, set_day := 2, total_alarms := 2,
                   eeprom := fun a =>
                     if a = 50 then 8 else if a = 51 then 0 else
                     if a = 52 then 8 else if a = 53 then 0 else 0 }

/-- Monday 08:29 with table `(8, 30)`, `(9, 30)` — two alarms an hour
apart sharing the same minute-of-hour. -/
def crossHourState : BellState :=
  { baseState with hh := 8, mm := 29, set_day := 2, bell_duration := 5,
                   total_alarms := 2,
                   eeprom := fun a =>
                     if a = 50 then 8 else if a = 51 then 30 else
                     if a = 52 then 9 else if a = 53 then 30 else 0 }

/-! ### Claim theorems -/

/-- C10: for every index at or above the current `total_alarms`, or
negative, `readAlarm` returns `(0, 0)` without failing, and the result
does not depend on the stored slots at all (the second conjunct: the
same answer under any storage contents); `readAlarm` is a pure function
of the state, so it modifies nothing. -/
theorem readAlarm_out_of_range_spec (s : BellState) (index : Int)
    (h : index < 0 ∨ s.total_alarms ≤ index) :
    readAlarm s index = (0, 0) ∧
    (∀ e2 : Nat → Int, readAlarm { s with eeprom := e2 } index = (0, 0)) := by
  constructor
  · unfold readAlarm
    rw [if_pos h]
  · intro e2
    unfold readAlarm
    rw [if_pos h]

/-- C10 witness: `readAlarm` at index 5 of a 2-entry table is `(0, 0)`
for two different storage contents. -/
theorem readAlarm_out_of_range_spec_witness :
    ((5 : Int) < 0 ∨ twoAlarmState.total_alarms ≤ 5) ∧
    readAlarm twoAlarmState 5 = (0, 0) ∧
    readAlarm { twoAlarmState with eeprom := fun _ => 77 } 5 = (0, 0) := by
  obtain ⟨h1, h2⟩ := readAlarm_out_of_range_spec twoAlarmState 5 (by decide)
  exact ⟨by decide, h1, h2 _⟩

/-- C9: `saveAlarm` on an in-capacity index writes the pair to the
slot's two storage bytes; when the index is not below the current count
it sets `total_alarms` to `index + 1` and persists the new count; a
smaller index leaves the count alone. -/
theorem saveAlarm_spec (s : BellState) (index hour minute : Int)
    (hi0 : 0 ≤ index) (hi1 : index < MAX_ALARMS)
    (hh1 : 0 ≤ hour) (hh2 : hour ≤ 23)
    (hm1 : 0 ≤ minute) (hm2 : minute ≤ 59) :
    ((saveAlarm s index hour minute).eeprom
        (ALARM_DATA_START + index.toNat * 2) = hour ∧
     (saveAlarm s index hour minute).eeprom
        (ALARM_DATA_START + index.toNat * 2 + 1) = minute) ∧
    (s.total_alarms ≤ index →
      (saveAlarm s index hour minute).total_alarms = index + 1 ∧
      (saveAlarm s index hour minute).eeprom ALARM_COUNT_ADDR = index + 1) ∧
    (index < s.total_alarms →
      (saveAlarm s index hour minute).total_alarms = s.total_alarms) := by
  have hguard : ¬ (index < 0 ∨ MAX_ALARMS ≤ index) := by
    push_neg
    exact ⟨hi0, hi1⟩
  have hmod_h : hour.emod 256 = hour := Int.emod_eq_of_lt hh1 (by omega)
  have hmod_m : minute.emod 256 = minute := Int.emod_eq_of_lt hm1 (by omega)
  have hmod_c : (index + 1).emod 256 = index + 1 := by
    have : index < 30 := by
      have := hi1
      unfold MAX_ALARMS at this
      exact this
    exact Int.emod_eq_of_lt (by omega) (by omega)
  unfold saveAlarm
  rw [if_neg hguard]
  by_cases ht : s.total_alarms ≤ index
  · rw [if_pos ht]
    dsimp only
    refine ⟨⟨?_, ?_⟩, fun _ => ⟨rfl, ?_⟩, fun hlt => absurd hlt (by omega)⟩
    · rw [ewrite_other _ _ _ _ (by unfold ALARM_COUNT_ADDR ALARM_DATA_START; omega),
          ewrite_other _ _ _ _ (by omega), ewrite_same]
      exact hmod_h
    · rw [ewrite_other _ _ _ _ (by unfold ALARM_COUNT_ADDR ALARM_DATA_START; omega),
          ewrite_same]
      exact hmod_m
    · rw [ewrite_same]
      exact hmod_c
  · rw [if_neg ht]
    dsimp only
    refine ⟨⟨?_, ?_⟩, fun hle => absurd hle ht, fun _ => rfl⟩
    · rw [ewrite_other _ _ _ _ (by omega), ewrite_same]
      exact hmod_h
    · rw [ewrite_same]
      exact hmod_m

/-- C9 witness: saving alarm `(8, 30)` at index 4 of a zero-initialized
state with `total_alarms = 2` stores the pair, extends and persists the
count to 5, and the skipped slot 3 then reads back as `(0, 0)`. -/
theorem saveAlarm_spec_witness :
    (saveAlarm { baseState with total_alarms := 2 } 4 8 30).eeprom
      (ALARM_DATA_START + (4 : Int).toNat * 2) = 8 ∧
    (saveAlarm { baseState with total_alarms := 2 } 4 8 30).total_alarms = 5 ∧
    (saveAlarm { baseState with total_alarms := 2 } 4 8 30).eeprom
      ALARM_COUNT_ADDR = 5 ∧
    readAlarm (saveAlarm { baseState with total_alarms := 2 } 4 8 30) 3 =
      (0, 0) := by
  have h := saveAlarm_spec { baseState with total_alarms := 2 } 4 8 30
    (by omega) (by decide) (by omega) (by omega) (by omega) (by omega)
  have hcnt := h.2.1 (by decide)
  refine ⟨h.1.1, by rw [hcnt.1]; norm_num, by rw [hcnt.2]; norm_num, by decide⟩

/-- C8: the `setup()` validation clamps a persisted duration outside
1..99 to 3 and rewrites it, a weekend selector outside 1..7 to 6 and
rewrites it, and an alarm count above 30 to 0 and rewrites it, while
in-domain values are kept and their bytes left untouched. -/
theorem setup_validation_spec (e : Nat → Int) :
    ((e BELL_DURATION_ADDR < MIN_BELL_DURATION ∨
        MAX_BELL_DURATION < e BELL_DURATION_ADDR) →
      (setupValidateSettings e).1.1 = 3 ∧
      (setupValidateSettings e).2 BELL_DURATION_ADDR = 3) ∧
    (MIN_BELL_DURATION ≤ e BELL_DURATION_ADDR →
      e BELL_DURATION_ADDR ≤ MAX_BELL_DURATION →
      (setupValidateSettings e).1.1 = e BELL_DURATION_ADDR ∧
      (setupValidateSettings e).2 BELL_DURATION_ADDR = e BELL_DURATION_ADDR) ∧
    ((e WEEKEND_DAY_ADDR < 1 ∨ 7 < e WEEKEND_DAY_ADDR) →
      (setupValidateSettings e).1.2.1 = 6 ∧
      (setupValidateSettings e).2 WEEKEND_DAY_ADDR = 6) ∧
    (1 ≤ e WEEKEND_DAY_ADDR → e WEEKEND_DAY_ADDR ≤ 7 →
      (setupValidateSettings e).1.2.1 = e WEEKEND_DAY_ADDR ∧
      (setupValidateSettings e).2 WEEKEND_DAY_ADDR = e WEEKEND_DAY_ADDR) ∧
    (MAX_ALARMS < e ALARM_COUNT_ADDR →
      (setupValidateSettings e).1.2.2 = 0 ∧
      (setupValidateSettings e).2 ALARM_COUNT_ADDR = 0) ∧
    (e ALARM_COUNT_ADDR ≤ MAX_ALARMS →
      (setupValidateSettings e).1.2.2 = e ALARM_COUNT_ADDR ∧
      (setupValidateSettings e).2 ALARM_COUNT_ADDR = e ALARM_COUNT_ADDR) := by
  have h3 : (3 : Int).emod 256 = 3 := by decide
  have h6 : (6 : Int).emod 256 = 6 := by decide
  have hz : (0 : Int).emod 256 = 0 := by decide
  unfold setupValidateSettings
  unfold BELL_DURATION_ADDR WEEKEND_DAY_ADDR ALARM_COUNT_ADDR
  unfold MIN_BELL_DURATION MAX_BELL_DURATION MAX_ALARMS
  by_cases hd : e 10 < 1 ∨ 99 < e 10 <;>
    by_cases hw : e 11 < 1 ∨ 7 < e 11 <;>
      by_cases hc : (30 : Int) < e 12 <;>
        simp only [hd, hw, hc, ewrite, h3, h6, hz, if_true, if_false,
          ite_true, ite_false, iff_true, iff_false, not_lt, not_or] <;>
        simp [ewrite, h3, h6, hz] <;>
        omega

/-- C8 witness: loading duration 150, selector 0 and count 200 yields 3,
6 and 0, each rewritten to storage. -/
theorem setup_validation_spec_witness :
    (setupValidateSettings corruptEE).1.1 = 3 ∧
    (setupValidateSettings corruptEE).2 BELL_DURATION_ADDR = 3 ∧
    (setupValidateSettings corruptEE).1.2.1 = 6 ∧
    (setupValidateSettings corruptEE).2 WEEKEND_DAY_ADDR = 6 ∧
    (setupValidateSettings corruptEE).1.2.2 = 0 ∧
    (setupValidateSettings corruptEE).2 ALARM_COUNT_ADDR = 0 := by
  have h := setup_validation_spec corruptEE
  have hd := h.1 (by decide)
  have hw := h.2.2.1 (by decide)
  have hc := h.2.2.2.2.1 (by decide)
  exact ⟨hd.1, hd.2, hw.1, hw.2, hc.1, hc.2⟩

/-- C6: `isWeekend` is true exactly per the selector policy (selector 6
means Friday and Saturday, any other selector means exactly that day);
on a day where it holds the relay-start block never fires, while the
valid day-changing reading still clears every trigger flag. -/
theorem isWeekend_spec :
    (∀ w d : Int, isWeekend w d = true ↔
       ((w = 6 ∧ (d = 6 ∨ d = 7)) ∨ (w ≠ 6 ∧ d = w))) ∧
    (∀ (s : BellState) (cur : Nat), isWeekend s.weekend s.set_day = true →
       startBellScan s cur = s) ∧
    (∀ (s : BellState) (r : ClockReading), r.valid = true →
       r.dow + 1 ≠ s.set_day →
       (updateTimeFromRTC s r).alarms_triggered_today =
         List.replicate MAX_ALARMS.toNat false) := by
  refine ⟨?_, ?_, ?_⟩
  · intro w d
    by_cases hw : w = 6 <;> simp [isWeekend, hw]
  · intro s cur h
    exact startBellScan_weekend s cur h
  · intro s r hv hd
    rw [updateTime_dayChange s r hv hd]

/-- C6 witness: the predicate at selector 6 on Saturday, at selector 3
on day 3, and their negatives; the Saturday scan is a no-op even with a
matching untriggered alarm; a day-changing valid reading clears the
flags of a state with a set flag. -/
theorem isWeekend_spec_witness :
    isWeekend 6 7 = true ∧ isWeekend 6 5 = false ∧
    isWeekend 3 3 = true ∧ isWeekend 3 6 = false ∧
    startBellScan satState 4 = satState ∧
    (updateTimeFromRTC
        { satState with alarms_triggered_today :=
            (List.replicate 30 false).set 0 true }
        ⟨9, 0, 0, 0, true⟩).alarms_triggered_today =
      List.replicate MAX_ALARMS.toNat false := by
  refine ⟨(isWeekend_spec.1 6 7).mpr (by norm_num), by decide,
          (isWeekend_spec.1 3 3).mpr (by norm_num), by decide,
          isWeekend_spec.2.1 satState 4 (by decide),
          isWeekend_spec.2.2 _ _ rfl (by decide)⟩

/-- C7: with an active session started at `bellStart`, a loop pass at
millisecond `cur` keeps the session and relay on while the elapsed time
is below `bell_duration` seconds, and ends the session and releases the
relay at the first pass where the elapsed time reaches the duration. -/
theorem bell_session_duration_spec (s : BellState) (r : ClockReading)
    (due : Bool) (cur : Nat)
    (hA : s.bellActive = true) (hR : s.relay = true) (hT : s.bellStart ≤ cur) :
    (cur - s.bellStart < (s.bell_duration * 1000).toNat →
       (loopIter s r due cur).bellActive = true ∧
       (loopIter s r due cur).relay = true) ∧
    ((s.bell_duration * 1000).toNat ≤ cur - s.bellStart →
       (loopIter s r due cur).bellActive = false ∧
       (loopIter s r due cur).relay = false) := by
  unfold loopIter
  dsimp only
  set s1 := if due then updateTimeFromRTC s r else s with hs1
  have hp : s1.bellActive = s.bellActive ∧ s1.relay = s.relay ∧
      s1.bellStart = s.bellStart ∧ s1.bell_duration = s.bell_duration := by
    rw [hs1]
    cases due
    · exact ⟨rfl, rfl, rfl, rfl⟩
    · have h := updateTime_pres s r
      exact ⟨h.2.2.2.1, h.2.2.2.2.2.1, h.2.2.2.2.1, h.1⟩
  have h1A : s1.bellActive = true := hp.1.trans hA
  rw [startBellScan_active s1 cur h1A]
  unfold stopBell
  by_cases hc : (s1.bell_duration * 1000).toNat ≤ cur - s1.bellStart
  · rw [if_pos ⟨h1A, hc⟩]
    rw [hp.2.2.1, hp.2.2.2] at hc
    exact ⟨fun h => absurd hc (by omega), fun _ => ⟨rfl, rfl⟩⟩
  · rw [if_neg fun hx => hc hx.2]
    rw [hp.2.2.1, hp.2.2.2] at hc
    exact ⟨fun _ => ⟨h1A, hp.2.1.trans hR⟩, fun h => absurd h hc⟩

/-- C7 witness: with duration 5 s and start at 1000 ms, the session is
still on at 5900 ms (elapsed 4900 ms) and off at 6000 ms (elapsed
5000 ms). -/
theorem bell_session_duration_spec_witness :
    ((loopIter bellOnState ⟨0, 0, 1, 0, true⟩ false 5900).bellActive = true ∧
     (loopIter bellOnState ⟨0, 0, 1, 0, true⟩ false 5900).relay = true) ∧
    ((loopIter bellOnState ⟨0, 0, 1, 0, true⟩ false 6000).bellActive = false ∧
     (loopIter bellOnState ⟨0, 0, 1, 0, true⟩ false 6000).relay = false) :=
  ⟨(bell_session_duration_spec bellOnState ⟨0, 0, 1, 0, true⟩ false 5900
      rfl rfl (by decide)).1 (by decide),
   (bell_session_duration_spec bellOnState ⟨0, 0, 1, 0, true⟩ false 6000
      rfl rfl (by decide)).2 (by decide)⟩

/-- C5: `findNextBell` finds nothing on a weekend or an empty table;
otherwise it selects the first slot in stored table order that is
strictly later than the current time or exactly equal and untriggered
(the first conjunct unfolds that per-slot condition), and when no slot
qualifies it falls back to slot 0 as tomorrow's first bell, regardless
of chronological order. -/
theorem findNextBell_spec (s : BellState) :
    (∀ i : Nat, nextB s i = true ↔
       (((readAlarm s (Int.ofNat i)).1 > s.hh ∨
         ((readAlarm s (Int.ofNat i)).1 = s.hh ∧
          (readAlarm s (Int.ofNat i)).2 > s.mm)) ∨
        ((readAlarm s (Int.ofNat i)).1 = s.hh ∧
         (readAlarm s (Int.ofNat i)).2 = s.mm ∧
         s.alarms_triggered_today.getD i false = false))) ∧
    (isWeekend s.weekend s.set_day = true →
       (findNextBell s).next_bell_found = false) ∧
    (s.total_alarms = 0 → (findNextBell s).next_bell_found = false) ∧
    (isWeekend s.weekend s.set_day = false → 0 < s.total_alarms →
       (∀ i : Nat, scanNext s = some i →
          (findNextBell s).next_bell_found = true ∧
          (findNextBell s).next_bell_hour = (readAlarm s (Int.ofNat i)).1 ∧
          (findNextBell s).next_bell_minute = (readAlarm s (Int.ofNat i)).2 ∧
          nextB s i = true ∧ ∀ j, j < i → nextB s j = false) ∧
       (scanNext s = none →
          (findNextBell s).next_bell_found = true ∧
          (findNextBell s).next_bell_hour = (readAlarm s 0).1 ∧
          (findNextBell s).next_bell_minute = (readAlarm s 0).2)) := by
  refine ⟨?_, ?_, ?_, fun hW hT => ⟨?_, ?_⟩⟩
  · intro i
    simp [nextB, and_assoc]
  · intro h
    unfold findNextBell
    dsimp only
    rw [if_pos h]
  · intro h
    simp [findNextBell, h]
  · intro i hsc
    have hmin := scanNextAux_some s s.total_alarms.toNat 0 i hsc
    unfold findNextBell
    dsimp only
    rw [if_neg (by rw [hW]; exact Bool.false_ne_true), if_neg (by omega), hsc]
    exact ⟨rfl, rfl, rfl, hmin.1, fun j hj => hmin.2 j (Nat.zero_le j) hj⟩
  · intro hsc
    unfold findNextBell
    dsimp only
    rw [if_neg (by rw [hW]; exact Bool.false_ne_true), if_neg (by omega), hsc,
        if_pos hT]
    exact ⟨rfl, rfl, rfl⟩

/-- C5 witness: on table `[(9,0), (8,0)]` at 08:30 the scan selects
slot 0 and announces `(9, 0)`, not `(8, 0)`. -/
theorem findNextBell_spec_witness :
    scanNext outOfOrderState = some 0 ∧
    (findNextBell outOfOrderState).next_bell_found = true ∧
    (findNextBell outOfOrderState).next_bell_hour = 9 ∧
    (findNextBell outOfOrderState).next_bell_minute = 0 := by
  have h := ((findNextBell_spec outOfOrderState).2.2.2 (by decide)
    (by decide)).1 0 (by decide)
  exact ⟨by decide, h.1, h.2.1.trans (by decide), h.2.2.1.trans (by decide)⟩

/-- C2 counterexample: a valid Tuesday-07:00 reading after Monday does
clear the flags and the `lastBellMinute` sentinel, but does NOT
recompute the next bell — `next_bell_found` stays `false` although a
recomputation at the committed state would find `(8, 0)`. -/
theorem dayRollover_no_next_bell_recompute :
    (⟨7, 0, 0, 2, true⟩ : ClockReading).valid = true ∧
    (⟨7, 0, 0, 2, true⟩ : ClockReading).dow + 1 ≠ staleNextState.set_day ∧
    (updateTimeFromRTC staleNextState ⟨7, 0, 0, 2, true⟩).alarms_triggered_today =
      List.replicate 30 false ∧
    (updateTimeFromRTC staleNextState ⟨7, 0, 0, 2, true⟩).lastBellMinute = -1 ∧
    (updateTimeFromRTC staleNextState ⟨7, 0, 0, 2, true⟩).next_bell_found = false ∧
    (findNextBell
        (updateTimeFromRTC staleNextState ⟨7, 0, 0, 2, true⟩)).next_bell_found =
      true ∧
    (findNextBell
        (updateTimeFromRTC staleNextState ⟨7, 0, 0, 2, true⟩)).next_bell_hour =
      8 := by
  decide

/-- C2 (amended): on every valid reading whose day-of-week differs from
the recorded day, and only then, all trigger flags are cleared and
`lastBellMinute` is reset to the sentinel; the next-bell value is NOT
recomputed by the rollover and keeps its previous value. -/
theorem dayRollover_reset_spec (s : BellState) (r : ClockReading)
    (hv : r.valid = true) :
    (r.dow + 1 ≠ s.set_day →
       (updateTimeFromRTC s r).alarms_triggered_today =
         List.replicate MAX_ALARMS.toNat false ∧
       (updateTimeFromRTC s r).lastBellMinute = -1 ∧
       (updateTimeFromRTC s r).next_bell_found = s.next_bell_found ∧
       (updateTimeFromRTC s r).next_bell_hour = s.next_bell_hour ∧
       (updateTimeFromRTC s r).next_bell_minute = s.next_bell_minute) ∧
    (r.dow + 1 = s.set_day →
       (updateTimeFromRTC s r).alarms_triggered_today =
         s.alarms_triggered_today ∧
       (updateTimeFromRTC s r).lastBellMinute = s.lastBellMinute) := by
  constructor
  · intro hd
    rw [updateTime_dayChange s r hv hd]
    exact ⟨rfl, rfl, rfl, rfl, rfl⟩
  · intro hd
    rw [updateTime_sameDay s r hv hd]
    exact ⟨rfl, rfl⟩

/-- C2 witness: the day-changing reading resets the sentinel; the
same-day reading keeps flags and sentinel. -/
theorem dayRollover_reset_spec_witness :
    (updateTimeFromRTC staleNextState ⟨7, 0, 0, 2, true⟩).lastBellMinute = -1 ∧
    (updateTimeFromRTC staleNextState ⟨7, 0, 0, 1, true⟩).lastBellMinute =
      staleNextState.lastBellMinute :=
  ⟨((dayRollover_reset_spec staleNextState ⟨7, 0, 0, 2, true⟩ rfl).1
      (by decide)).2.1,
   ((dayRollover_reset_spec staleNextState ⟨7, 0, 0, 1, true⟩ rfl).2
      (by decide)).2⟩

/-- C3 counterexample: on a loop pass whose clock reading is invalid the
trigger evaluation is NOT skipped — it runs against the last-known time
and here starts a bell session (slot 1 fires, relay energised). -/
theorem invalid_read_scan_still_fires :
    (⟨0, 0, 0, 0, false⟩ : ClockReading).valid = false ∧
    staleScanState.bellActive = false ∧
    (loopIter staleScanState ⟨0, 0, 0, 0, false⟩ true 91000).bellActive = true ∧
    (loopIter staleScanState ⟨0, 0, 0, 0, false⟩ true 91000).relay = true ∧
    (loopIter staleScanState
        ⟨0, 0, 0, 0, false⟩ true 91000).alarms_triggered_today.getD 1 false =
      true := by
  decide

/-- C3 (amended): an invalid reading commits nothing — the RTC refresh
only drops `rtc_valid`, so the last successfully read time and day stay
authoritative, the day-rollover reset is skipped, an active session is
not halted by the read, and the pass behaves exactly like one without an
RTC refresh; the alarm scan however still runs on the last-known
values. -/
theorem invalid_read_preserves_state (s : BellState) (r : ClockReading)
    (cur : Nat) (hv : r.valid = false) :
    updateTimeFromRTC s r = { s with rtc_valid := false } ∧
    loopIter s r true cur = loopIter { s with rtc_valid := false } r false cur := by
  have h := updateTime_invalid s r hv
  refine ⟨h, ?_⟩
  show stopBell (startBellScan (updateTimeFromRTC s r) cur) cur =
    stopBell (startBellScan { s with rtc_valid := false } cur) cur
  rw [h]

/-- C3 witness: the amended statement at the stale-scan state and an
invalid reading. -/
theorem invalid_read_preserves_state_witness :
    updateTimeFromRTC staleScanState ⟨0, 0, 0, 0, false⟩ =
      { staleScanState with rtc_valid := false } ∧
    loopIter staleScanState ⟨0, 0, 0, 0, false⟩ true 91000 =
      loopIter { staleScanState with rtc_valid := false }
        ⟨0, 0, 0, 0, false⟩ false 91000 :=
  invalid_read_preserves_state staleScanState ⟨0, 0, 0, 0, false⟩ 91000 rfl

/-- In the duplicate-table scenario neither slot can fire: slot 0 is
blocked by its trigger flag, slot 1 by the `lastBellMinute` guard (when
the minute matches) or by the minute mismatch (when it does not). -/
theorem dup_fireB_false (s : BellState) (hI : dupTableInv s) :
    fireB s 0 = false ∧ fireB s 1 = false := by
  obtain ⟨ht, he0, he1, he2, he3, hg0, hg1, hlm⟩ := hI
  rw [List.getD_eq_getElem?_getD] at hg0 hg1
  constructor
  · simp [fireB, readAlarm, ALARM_DATA_START, ht, hg0]
  · by_cases hm : (0 : Int) = s.mm
    · simp [fireB, readAlarm, ALARM_DATA_START, ht, he3, hlm, ← hm]
    · simp [fireB, readAlarm, ALARM_DATA_START, ht, he3, hm]

/-- In the duplicate-table scenario the relay-start scan finds no
candidate. -/
theorem dup_scanFire_none (s : BellState) (hI : dupTableInv s) :
    scanFire s = none := by
  obtain ⟨hf0, hf1⟩ := dup_fireB_false s hI
  have ht : s.total_alarms.toNat = 2 := by rw [hI.1]; rfl
  unfold scanFire
  rw [ht]
  unfold scanFireAux
  rw [if_neg (by rw [hf0]; exact Bool.false_ne_true)]
  unfold scanFireAux
  rw [if_neg (by rw [hf1]; exact Bool.false_ne_true)]
  rfl

/-- One loop pass with a valid same-day reading preserves the
duplicate-table scenario and the recorded day. -/
theorem dupTableInv_step (s : BellState) (r : ClockReading) (due : Bool)
    (cur : Nat) (d : Int) (hI : dupTableInv s) (hsd : s.set_day = d)
    (hv : r.valid = true) (hdow : r.dow + 1 = d) :
    dupTableInv (loopIter s r due cur) ∧ (loopIter s r due cur).set_day = d := by
  have hstep : ∀ s1 : BellState, dupTableInv s1 → s1.set_day = d →
      dupTableInv (stopBell (startBellScan s1 cur) cur) ∧
      (stopBell (startBellScan s1 cur) cur).set_day = d := by
    intro s1 hI1 hsd1
    rw [startBellScan_none s1 cur (dup_scanFire_none s1 hI1)]
    have hp := stopBell_pres s1 cur
    obtain ⟨ht, he0, he1, he2, he3, hg0, hg1, hlm⟩ := hI1
    refine ⟨⟨?_, ?_, ?_, ?_, ?_, ?_, ?_, ?_⟩, ?_⟩ <;>
      simp only [hp.1, hp.2.1, hp.2.2.1, hp.2.2.2.1, hp.2.2.2.2.1] <;>
      assumption
  show dupTableInv (stopBell (startBellScan (if due then updateTimeFromRTC s r
      else s) cur) cur) ∧
    (stopBell (startBellScan (if due then updateTimeFromRTC s r else s) cur)
        cur).set_day = d
  cases due
  · exact hstep s hI hsd
  · rw [show (if (true : Bool) then updateTimeFromRTC s r else s) =
        updateTimeFromRTC s r from rfl,
        updateTime_sameDay s r hv (hdow.trans hsd.symm)]
    exact hstep
      { s with ss := r.second, mm := r.minute, hh := r.hour,
               set_day := r.dow + 1, rtc_valid := true }
      ⟨hI.1, hI.2.1, hI.2.2.1, hI.2.2.2.1, hI.2.2.2.2.1,
       hI.2.2.2.2.2.1, hI.2.2.2.2.2.2.1, hI.2.2.2.2.2.2.2⟩ hdow

/-- C4: the relay-start scan fires only the first table-order slot
satisfying the match condition (first conjunct: any firing index is a
first match; second conjunct: exactly that one flag is set and one
session starts); and in the duplicate-table scenario — slot 0 fired at
08:00 establishing `dupTableInv` (third conjunct) — slot 1's flag stays
false over any same-day run of loop passes (fourth conjunct). -/
theorem first_match_only_fires :
    (∀ (s : BellState) (i : Nat), scanFire s = some i →
       fireB s i = true ∧ ∀ j, j < i → fireB s j = false) ∧
    (∀ (s : BellState) (cur : Nat) (i : Nat),
       s.bellActive = false → isWeekend s.weekend s.set_day = false →
       scanFire s = some i →
       (startBellScan s cur).alarms_triggered_today =
         s.alarms_triggered_today.set i true ∧
       (startBellScan s cur).bellActive = true) ∧
    ((startBellScan dupFreshState 0).alarms_triggered_today.getD 0 false = true ∧
     dupTableInv (startBellScan dupFreshState 0)) ∧
    (∀ (s : BellState) (d : Int) (steps : List (ClockReading × Bool × Nat)),
       dupTableInv s → s.set_day = d →
       (∀ p ∈ steps, p.1.valid = true ∧ p.1.dow + 1 = d) →
       (runSteps s steps).alarms_triggered_today.getD 1 false = false) := by
  refine ⟨?_, ?_, ?_, ?_⟩
  · intro s i h
    have hm := scanFireAux_some s s.total_alarms.toNat 0 i h
    exact ⟨hm.1, fun j hj => hm.2 j (Nat.zero_le j) hj⟩
  · intro s cur i hA hW h
    rw [startBellScan_fire s cur i hA hW h]
    obtain ⟨p1, p2, p3, p4, p5, p6, p7, p8, p9, p10, p11, p12, p13, p14, p15⟩ :=
      findNextBell_pres
        { s with alarms_triggered_today := s.alarms_triggered_today.set i true,
                 lastBellMinute := s.mm,
                 relay := true, led_bell := true,
                 bellStart := cur, bellActive := true }
    exact ⟨p12, p9⟩
  · exact ⟨by decide, by decide⟩
  · intro s d steps
    induction steps generalizing s with
    | nil =>
      intro hI _ _
      exact hI.2.2.2.2.2.2.1
    | cons p rest ih =>
      obtain ⟨r, due, cur⟩ := p
      intro hI hsd hsteps
      have hp := hsteps (r, due, cur) (List.mem_cons_self _ _)
      have hstep := dupTableInv_step s r due cur d hI hsd hp.1 hp.2
      exact ih (loopIter s r due cur) hstep.1 hstep.2
        fun q hq => hsteps q (List.mem_cons_of_mem _ hq)

/-- C4 witness: at 08:00 slot 0 is the (first) firing candidate, only
its flag is set, and a subsequent same-day pass still leaves slot 1's
flag false. -/
theorem first_match_only_fires_witness :
    fireB dupFreshState 0 = true ∧
    (startBellScan dupFreshState 0).alarms_triggered_today =
      dupFreshState.alarms_triggered_today.set 0 true ∧
    (runSteps (startBellScan dupFreshState 0)
        [(⟨8, 0, 30, 1, true⟩, true, 7000)]).alarms_triggered_today.getD 1
      false = false := by
  have hA := first_match_only_fires.1 dupFreshState 0 (by decide)
  have hB := first_match_only_fires.2.1 dupFreshState 0 0 rfl (by decide)
    (by decide)
  have hC := first_match_only_fires.2.2.2 (startBellScan dupFreshState 0) 2
    [(⟨8, 0, 30, 1, true⟩, true, 7000)] (by decide) (by decide) (by decide)
  exact ⟨hA.1, hB.1, hC⟩

/-- C1 (bug demonstration): with alarms `(8, 30)` and `(9, 30)`, the
08:30 pass fires slot 0 and records `lastBellMinute = 30`; after the
session ends, the 09:30 pass finds slot 1 matching the current time and
untriggered, yet starts no session — the `lastBellMinute` guard also
suppresses a later alarm in a different hour with the same
minute-of-hour, so slot 1 never rings that day. -/
theorem lastBellMinute_suppresses_cross_hour_alarm :
    (loopIter crossHourState ⟨8, 30, 0, 1, true⟩ true 0).bellActive = true ∧
    (loopIter crossHourState
        ⟨8, 30, 0, 1, true⟩ true 0).alarms_triggered_today.getD 0 false =
      true ∧
    (runSteps crossHourState
        [(⟨8, 30, 0, 1, true⟩, true, 0),
         (⟨8, 30, 6, 1, true⟩, true, 6000)]).bellActive = false ∧
    (runSteps crossHourState
        [(⟨8, 30, 0, 1, true⟩, true, 0), (⟨8, 30, 6, 1, true⟩, true, 6000),
         (⟨9, 30, 0, 1, true⟩, true, 3600000)]).hh = 9 ∧
    (runSteps crossHourState
        [(⟨8, 30, 0, 1, true⟩, true, 0), (⟨8, 30, 6, 1, true⟩, true, 6000),
         (⟨9, 30, 0, 1, true⟩, true, 3600000)]).mm = 30 ∧
    readAlarm (runSteps crossHourState
        [(⟨8, 30, 0, 1, true⟩, true, 0), (⟨8, 30, 6, 1, true⟩, true, 6000),
         (⟨9, 30, 0, 1, true⟩, true, 3600000)]) 1 = (9, 30) ∧
    (runSteps crossHourState
        [(⟨8, 30, 0, 1, true⟩, true, 0), (⟨8, 30, 6, 1, true⟩, true, 6000),
         (⟨9, 30, 0, 1, true⟩, true, 3600000)]).lastBellMinute = 30 ∧
    (runSteps crossHourState
        [(⟨8, 30, 0, 1, true⟩, true, 0), (⟨8, 30, 6, 1, true⟩, true, 6000),
         (⟨9, 30, 0, 1, true⟩, true, 3600000)]).bellActive = false ∧
    (runSteps crossHourState
        [(⟨8, 30, 0, 1, true⟩, true, 0), (⟨8, 30, 6, 1, true⟩, true, 6000),
         (⟨9, 30, 0, 1, true⟩, true,
          3600000)]).alarms_triggered_today.getD 1 false = false := by
  decide

end AutoBell
